import Mathlib

/-!
Shallow embedding of `testSuite/scripts/run.py`, the smoke-test harness of
azure-storage-azcopy, together with proofs about its configuration
resolution, error handling, cleanup and test-group scheduling.

Modelling choices:
* `os.environ` is an association list `Env`; `envSet` prepends, `envGet?`
  returns the most recent binding.
* The result of `configparser.RawConfigParser().read('../test_suite_config.ini')`
  is an `Option Config`: `none` models `len(files_read) != 1` (file missing
  or unreadable), `some cfg` a successfully read file.  `configparser`'s
  default `optionxform` stores option names lowercased, so a `Config` keeps
  its option keys lowercased and lookups lowercase the requested key;
  section names are case-sensitive, as in `configparser`.
* Raised exceptions become `Except` errors.  Since `os.environ` mutations
  made before a raise persist, an error carries the environment at the
  point of the raise.
* The filesystem seen by `cleanup` is a list of `(name, removable)` pairs:
  `os.remove` succeeds exactly on present files whose flag is `true` and
  raises `OSError` otherwise.
* `util.initialize_test_suite` lives in `utility.py`, outside the embedded
  file; its result is an abstract boolean parameter `suiteInitOk`.
* Observable behaviour of `init`/`main` (cleanup invocations, the suite
  initializer call, the failure message, each `unittest` group run) is
  recorded as a trace of `Event`s; `unittest`'s `TextTestRunner.run`
  reports failures without raising, so a group run carries an abstract
  `failed` flag and never produces an error.
-/

namespace RunPy

/-- `os.environ`: an association list from variable names to values. -/
abbrev Env := List (String × String)

/-- Lookup of an environment variable (most recent binding wins). -/
def envGet? : Env → String → Option String
  | [], _ => none
  | (k, v) :: rest, key => if key = k then some v else envGet? rest key

/-- `os.environ[key] = v`. -/
def envSet (env : Env) (key v : String) : Env :=
  (key, v) :: env

/-- Python's `str.upper()` for ASCII names: uppercase each character.
(Behaves as `String.toUpper`, but written structurally on the character
list so that proofs can evaluate it.) -/
def strUpper (s : String) : String :=
  ⟨s.data.map Char.toUpper⟩

/-- Lowercasing, as configparser's default `optionxform` applies to option
keys. (Behaves as `String.toLower`, written structurally.) -/
def strLower (s : String) : String :=
  ⟨s.data.map Char.toLower⟩

/-- A parsed `test_suite_config.ini`: named sections, each a list of
options whose keys are stored lowercased (configparser's `optionxform`). -/
structure Config where
  sections : List (String × List (String × String))

/-- The option list of a section (empty when the section is absent). -/
def sectionOpts (config : Config) (sec : String) : List (String × String) :=
  ((config.sections.find? (fun s => s.fst = sec)).map Prod.snd).getD []

/-- `config[sec][key]`: configparser lowercases the requested option key. -/
def optionGet? (config : Config) (sec key : String) : Option String :=
  envGet? (sectionOpts config sec) (strLower key)

/-- `config.sections().index(os_type)` succeeds iff the section exists. -/
def hasSection (config : Config) (sec : String) : Bool :=
  (config.sections.map Prod.fst).contains sec

/-- The exceptions `parse_config_file_set_env` can raise:
`Failed to find/open test_suite_config.ini file`,
`not able to find the config defined for ostype <os>` and the `KeyError`
raised by `config[sec][key]` when the section or option is absent. -/
inductive ParseError where
  | failedToOpen
  | platformNotFound (osType : String)
  | missingKey (sec key : String)
deriving DecidableEq

/-- One `os.environ[key] = config[sec][key]` assignment; a missing section
or option raises `KeyError`, carrying the environment as mutated so far. -/
def setFromConfig (config : Config) (sec key : String) (env : Env) :
    Except (ParseError × Env) Env :=
  match optionGet? config sec key with
  | some v => .ok (envSet env key v)
  | none => .error (.missingKey sec key, env)

/-- `parse_config_file_set_env` (run.py lines 17-74): open the config file,
look up the section named after the uppercased platform, then set the 12
environment variables one by one in source order. -/
def parse_config_file_set_env (osName : String) (filesRead : Option Config)
    (env0 : Env) : Except (ParseError × Env) Env :=
  match filesRead with
  | none => .error (.failedToOpen, env0)
  | some config =>
    let os_type := strUpper osName
    if hasSection config os_type then do
      let env ← setFromConfig config os_type "TEST_DIRECTORY_PATH" env0
      let env ← setFromConfig config os_type "AZCOPY_EXECUTABLE_PATH" env
      let env ← setFromConfig config os_type "TEST_SUITE_EXECUTABLE_LOCATION" env
      let env ← setFromConfig config "CREDENTIALS" "CONTAINER_SAS_URL" env
      let env ← setFromConfig config "CREDENTIALS" "CONTAINER_OAUTH_URL" env
      let env ← setFromConfig config "CREDENTIALS" "CONTAINER_OAUTH_VALIDATE_SAS_URL" env
      let env ← setFromConfig config "CREDENTIALS" "SHARE_SAS_URL" env
      let env ← setFromConfig config "CREDENTIALS" "PREMIUM_CONTAINER_SAS_URL" env
      let env ← setFromConfig config "CREDENTIALS" "ACCOUNT_NAME" env
      let env ← setFromConfig config "CREDENTIALS" "ACCOUNT_KEY" env
      let env ← setFromConfig config "CREDENTIALS" "FILESYSTEM_URL" env
      setFromConfig config "CREDENTIALS" "AZCOPY_OAUTH_TOKEN_INFO" env
    else .error (.platformNotFound os_type, env0)

/-- `check_env_not_exist` (run.py lines 76-80):
`os.environ.get(key, '-1') == '-1'`. -/
def check_env_not_exist (env : Env) (key : String) : Bool :=
  ((envGet? env key).getD "-1") = "-1"

/-- The 12 variables `init` checks, in the order of its `or`-chain
(run.py lines 88-93). -/
def initCheckedVars : List String :=
  ["TEST_DIRECTORY_PATH", "AZCOPY_EXECUTABLE_PATH",
   "TEST_SUITE_EXECUTABLE_LOCATION", "CONTAINER_SAS_URL",
   "CONTAINER_OAUTH_URL", "CONTAINER_OAUTH_VALIDATE_SAS_URL",
   "SHARE_SAS_URL", "PREMIUM_CONTAINER_SAS_URL", "FILESYSTEM_URL",
   "ACCOUNT_NAME", "ACCOUNT_KEY", "AZCOPY_OAUTH_TOKEN_INFO"]

/-- The 12 environment variables in the order
`parse_config_file_set_env` sets them (run.py lines 36-74). -/
def twelveVars : List String :=
  ["TEST_DIRECTORY_PATH", "AZCOPY_EXECUTABLE_PATH",
   "TEST_SUITE_EXECUTABLE_LOCATION", "CONTAINER_SAS_URL",
   "CONTAINER_OAUTH_URL", "CONTAINER_OAUTH_VALIDATE_SAS_URL",
   "SHARE_SAS_URL", "PREMIUM_CONTAINER_SAS_URL", "ACCOUNT_NAME",
   "ACCOUNT_KEY", "FILESYSTEM_URL", "AZCOPY_OAUTH_TOKEN_INFO"]

/-- The configuration-resolution step of `init` (run.py lines 88-94): if
any checked variable is unset (or `'-1'`), parse the config file; the
returned flag records whether `parse_config_file_set_env` was invoked
(i.e. whether the config file was consulted at all). -/
def initResolve (osName : String) (filesRead : Option Config) (env : Env) :
    Except (ParseError × Env) (Env × Bool) :=
  if initCheckedVars.any (fun k => check_env_not_exist env k) then
    (parse_config_file_set_env osName filesRead env).map (fun e => (e, true))
  else
    .ok (env, false)

/-- The filesystem of the working directory: file names paired with
whether `os.remove` on them succeeds (`false` models an `OSError`). -/
abbrev FS := List (String × Bool)

/-- `glob.glob('*.log')` matches names ending in `.log`. -/
def matchesLogGlob (name : String) : Bool :=
  name.endsWith ".log"

/-- `os.remove(name)`: succeeds (removing the file) exactly when the file
is present and removable; otherwise raises `OSError`. -/
def removeFile (fs : FS) (name : String) : Except Unit FS :=
  match fs.find? (fun f => f.fst == name) with
  | some (_, true) => .ok (fs.filter (fun f => !(f.fst == name)))
  | _ => .error ()

/-- The loop body of `cleanup`: attempt `os.remove` on each pending name,
swallowing `OSError` (`except OSError: pass`) and continuing; returns the
final filesystem and the list of attempted removals. -/
def removeLogs : FS → List String → FS × List String
  | fs, [] => (fs, [])
  | fs, name :: rest =>
    let fs1 := match removeFile fs name with
      | .ok fs2 => fs2
      | .error _ => fs
    let r := removeLogs fs1 rest
    (r.fst, name :: r.snd)

/-- `cleanup` (run.py lines 138-144): iterate over `glob.glob('*.log')`
and best-effort delete each match. -/
def cleanup (fs : FS) : FS × List String :=
  removeLogs fs ((fs.filter (fun f => matchesLogGlob f.fst)).map Prod.fst)

/-- Observable events of a harness run. -/
inductive Event where
  | cleanupRun
  | suiteInit (ok : Bool)
  | suiteInitFailMsg
  | groupRun (name : String) (failed : Bool)
deriving DecidableEq

/-- Result of a successful `init`: the environment, the filesystem after
the log cleanup, and the observable events. -/
structure InitResult where
  env : Env
  fs : FS
  events : List Event
deriving DecidableEq

/-- `init` (run.py lines 83-135): resolve configuration (possibly parsing
the config file), read the variables back, run `cleanup`, then call
`util.initialize_test_suite`; when the initializer returns false, print
the failure message and return — the function returns normally in both
cases. -/
def init (osName : String) (filesRead : Option Config) (env : Env)
    (fs : FS) (suiteInitOk : Bool) : Except (ParseError × Env) InitResult :=
  match initResolve osName filesRead env with
  | .error e => .error e
  | .ok (env1, _) =>
    let fs1 := (cleanup fs).fst
    if suiteInitOk then
      .ok ⟨env1, fs1, [.cleanupRun, .suiteInit true]⟩
    else
      .ok ⟨env1, fs1, [.cleanupRun, .suiteInit false, .suiteInitFailMsg]⟩

/-- The ten test-case groups in the order `main` loads and runs them
(run.py lines 150-178). -/
def groupNames : List String :=
  ["Block_Upload_User_Scenarios", "Blob_Download_User_Scenario",
   "PageBlob_Upload_User_Scenarios", "BlobFs_Upload_OAuth_User_Scenarios",
   "BlobFs_Download_OAuth_User_Scenarios", "Azcopy_Operation_User_Scenario",
   "FileShare_Download_User_Scenario", "FileShare_Upload_User_Scenario",
   "BlobFs_Upload_ShareKey_User_Scenarios",
   "BlobFs_Download_SharedKey_User_Scenarios"]

/-- `main` (run.py lines 147-180): call `init`; an exception propagates
(no group runs), otherwise run the ten groups unconditionally in order —
`TextTestRunner.run` records a group's failures (`groupFails`) without
raising — and finish with a final `cleanup`. -/
def main (osName : String) (filesRead : Option Config) (env : Env)
    (fs : FS) (suiteInitOk : Bool) (groupFails : String → Bool) :
    Except (ParseError × Env) (Env × FS × List Event) :=
  match init osName filesRead env fs suiteInitOk with
  | .error e => .error e
  | .ok r =>
    let groupEvents := groupNames.map (fun n => Event.groupRun n (groupFails n))
    let fs2 := (cleanup r.fs).fst
    .ok (r.env, fs2, r.events ++ groupEvents ++ [.cleanupRun])

/-- The names of the groups actually run, in order, read off a trace. -/
def executedGroups (evs : List Event) : List String :=
  evs.filterMap (fun e => match e with
    | .groupRun n _ => some n
    | _ => none)

/-- How many of the 12 variables are present in an environment. -/
def setCount (env : Env) : Nat :=
  (twelveVars.filter (fun k => (envGet? env k).isSome)).length

/-- A concrete well-formed config file for witnesses. -/
def sampleConfig : Config :=
  ⟨[("LINUX",
     [("test_directory_path", "dir"), ("azcopy_executable_path", "az"),
      ("test_suite_executable_location", "ts")]),
    ("CREDENTIALS",
     [("container_sas_url", "c1"), ("container_oauth_url", "c2"),
      ("container_oauth_validate_sas_url", "c3"), ("share_sas_url", "c4"),
      ("premium_container_sas_url", "c5"), ("account_name", "c6"),
      ("account_key", "c7"), ("filesystem_url", "c8"),
      ("azcopy_oauth_token_info", "c9")])]⟩

/-- A concrete environment with all 12 variables set to non-sentinel values. -/
def sampleEnvAllSet : Env :=
  [("TEST_DIRECTORY_PATH", "d"), ("AZCOPY_EXECUTABLE_PATH", "a"),
   ("TEST_SUITE_EXECUTABLE_LOCATION", "t"), ("CONTAINER_SAS_URL", "u1"),
   ("CONTAINER_OAUTH_URL", "u2"), ("CONTAINER_OAUTH_VALIDATE_SAS_URL", "u3"),
   ("SHARE_SAS_URL", "u4"), ("PREMIUM_CONTAINER_SAS_URL", "u5"),
   ("FILESYSTEM_URL", "u6"), ("ACCOUNT_NAME", "u7"), ("ACCOUNT_KEY", "u8"),
   ("AZCOPY_OAUTH_TOKEN_INFO", "u9")]

/-- A concrete config file whose CREDENTIALS section is absent. -/
def sampleConfigNoCredentials : Config :=
  ⟨[("LINUX",
     [("test_directory_path", "dir"), ("azcopy_executable_path", "az"),
      ("test_suite_executable_location", "ts")])]⟩

/-- A concrete config file without a LINUX section. -/
def sampleConfigNoPlatform : Config :=
  ⟨[("CREDENTIALS", [("container_sas_url", "c1")])]⟩

/-- sampleEnvAllSet with CONTAINER_SAS_URL set to the sentinel value. -/
def sampleEnvSentinel : Env := envSet sampleEnvAllSet "CONTAINER_SAS_URL" "-1"

/-- An environment with only CONTAINER_SAS_URL pre-set (to a non-sentinel value). -/
def sampleEnvPreset : Env := [("CONTAINER_SAS_URL", "old-value")]

/-- A concrete working directory: two log files (one locked) and one other file. -/
def sampleFS : FS := [("a.log", true), ("keep.txt", true), ("locked.log", false)]

theorem envGet?_envSet_self (env : Env) (k v : String) :
    envGet? (envSet env k v) k = some v := by
  simp [envGet?, envSet]

theorem envGet?_envSet_ne (env : Env) (k v k' : String) (h : k' ≠ k) :
    envGet? (envSet env k v) k' = envGet? env k' := by
  simp [envGet?, envSet, h]

theorem removeLogs_snd (pending : List String) (fs : FS) :
    (removeLogs fs pending).snd = pending := by
  induction pending generalizing fs with
  | nil => rfl
  | cons n rest ih => simp [removeLogs, ih]

theorem cleanup_snd (fs : FS) :
    (cleanup fs).snd = (fs.filter (fun f => matchesLogGlob f.fst)).map Prod.fst := by
  simp [cleanup, removeLogs_snd]

theorem removeLogs_fst (pending : List String) (fs : FS)
    (hnd : (fs.map Prod.fst).Nodup) :
    (removeLogs fs pending).fst =
      fs.filter (fun f => !(pending.contains f.fst && f.snd)) := by
  induction pending generalizing fs with
  | nil => simp [removeLogs]
  | cons n rest ih =>
    have huniq := List.inj_on_of_nodup_map hnd
    rcases hfind : fs.find? (fun f => f.fst == n) with _ | ⟨m, mb⟩
    · have hnone := List.find?_eq_none.mp hfind
      simp only [removeLogs, removeFile, hfind]
      rw [ih fs hnd]
      refine List.filter_congr (fun f hf => ?_)
      have hne : ¬ f.fst = n := by simpa using hnone f hf
      simp [List.contains_cons, hne]
    · have hmn : m = n := by simpa using List.find?_some hfind
      have hmem : (m, mb) ∈ fs := List.mem_of_find?_eq_some hfind
      subst hmn
      cases mb with
      | true =>
        simp only [removeLogs, removeFile, hfind]
        have hsub : ((fs.filter (fun f => !(f.fst == m))).map Prod.fst).Nodup :=
          List.Nodup.sublist ((List.filter_sublist fs).map Prod.fst) hnd
        rw [ih _ hsub, List.filter_filter]
        refine List.filter_congr (fun f hf => ?_)
        by_cases hfn : f.fst = m
        · have hfe : f = (m, true) := huniq hf hmem hfn
          simp [hfe, List.contains_cons]
        · simp [List.contains_cons, hfn]
      | false =>
        simp only [removeLogs, removeFile, hfind]
        rw [ih fs hnd]
        refine List.filter_congr (fun f hf => ?_)
        by_cases hfn : f.fst = m
        · have hfe : f = (m, false) := huniq hf hmem hfn
          simp [hfe, List.contains_cons]
        · simp [List.contains_cons, hfn]

theorem cleanup_fst (fs : FS) (hnd : (fs.map Prod.fst).Nodup) :
    (cleanup fs).fst = fs.filter (fun f => !(matchesLogGlob f.fst && f.snd)) := by
  have huniq := List.inj_on_of_nodup_map hnd
  rw [cleanup, removeLogs_fst _ _ hnd]
  refine List.filter_congr (fun f hf => ?_)
  have hmem_iff : (f.fst ∈ (fs.filter (fun g => matchesLogGlob g.fst)).map Prod.fst)
      ↔ matchesLogGlob f.fst = true := by
    constructor
    · intro h
      rcases List.mem_map.mp h with ⟨g, hg, hgf⟩
      rcases List.mem_filter.mp hg with ⟨hgfs, hgml⟩
      have hge : g = f := huniq hgfs hf hgf
      rwa [hge] at hgml
    · intro h
      exact List.mem_map.mpr ⟨f, List.mem_filter.mpr ⟨hf, h⟩, rfl⟩
  simp [hmem_iff]

theorem parse_ok (osName : String) (config : Config) (env0 : Env)
    (p1 p2 p3 c1 c2 c3 c4 c5 c6 c7 c8 c9 : String)
    (hsec : hasSection config (strUpper osName) = true)
    (h1 : optionGet? config (strUpper osName) "TEST_DIRECTORY_PATH" = some p1)
    (h2 : optionGet? config (strUpper osName) "AZCOPY_EXECUTABLE_PATH" = some p2)
    (h3 : optionGet? config (strUpper osName) "TEST_SUITE_EXECUTABLE_LOCATION" = some p3)
    (h4 : optionGet? config "CREDENTIALS" "CONTAINER_SAS_URL" = some c1)
    (h5 : optionGet? config "CREDENTIALS" "CONTAINER_OAUTH_URL" = some c2)
    (h6 : optionGet? config "CREDENTIALS" "CONTAINER_OAUTH_VALIDATE_SAS_URL" = some c3)
    (h7 : optionGet? config "CREDENTIALS" "SHARE_SAS_URL" = some c4)
    (h8 : optionGet? config "CREDENTIALS" "PREMIUM_CONTAINER_SAS_URL" = some c5)
    (h9 : optionGet? config "CREDENTIALS" "ACCOUNT_NAME" = some c6)
    (h10 : optionGet? config "CREDENTIALS" "ACCOUNT_KEY" = some c7)
    (h11 : optionGet? config "CREDENTIALS" "FILESYSTEM_URL" = some c8)
    (h12 : optionGet? config "CREDENTIALS" "AZCOPY_OAUTH_TOKEN_INFO" = some c9) :
    parse_config_file_set_env osName (some config) env0 =
      .ok (("AZCOPY_OAUTH_TOKEN_INFO", c9) :: ("FILESYSTEM_URL", c8) ::
           ("ACCOUNT_KEY", c7) :: ("ACCOUNT_NAME", c6) ::
           ("PREMIUM_CONTAINER_SAS_URL", c5) :: ("SHARE_SAS_URL", c4) ::
           ("CONTAINER_OAUTH_VALIDATE_SAS_URL", c3) ::
           ("CONTAINER_OAUTH_URL", c2) :: ("CONTAINER_SAS_URL", c1) ::
           ("TEST_SUITE_EXECUTABLE_LOCATION", p3) ::
           ("AZCOPY_EXECUTABLE_PATH", p2) :: ("TEST_DIRECTORY_PATH", p1) :: env0) := by
  simp [parse_config_file_set_env, setFromConfig, hsec, h1, h2, h3, h4, h5, h6,
    h7, h8, h9, h10, h11, h12, envSet, Bind.bind, Except.bind]

theorem except_bind_ok {ε α β : Type} {x : Except ε α} {f : α → Except ε β}
    {b : β} (h : x >>= f = .ok b) : ∃ a, x = .ok a ∧ f a = .ok b := by
  cases x with
  | error e => simp [Bind.bind, Except.bind] at h
  | ok a => exact ⟨a, rfl, by simpa [Bind.bind, Except.bind] using h⟩

theorem setFromConfig_ok_inv (config : Config) (sec key : String) (env env1 : Env)
    (h : setFromConfig config sec key env = .ok env1) :
    ∃ v, optionGet? config sec key = some v ∧ env1 = envSet env key v := by
  unfold setFromConfig at h
  rcases e : optionGet? config sec key with _ | v
  · rw [e] at h; cases h
  · rw [e] at h
    simp at h
    exact ⟨v, rfl, h.symm⟩

theorem parse_ok_all_set (osName : String) (config : Config) (env0 env1 : Env)
    (h : parse_config_file_set_env osName (some config) env0 = .ok env1) :
    ∀ k ∈ twelveVars, (envGet? env1 k).isSome := by
  simp only [parse_config_file_set_env] at h
  by_cases hsec : hasSection config (strUpper osName) = true
  · rw [if_pos hsec] at h
    obtain ⟨a1, e1, h⟩ := except_bind_ok h
    obtain ⟨a2, e2, h⟩ := except_bind_ok h
    obtain ⟨a3, e3, h⟩ := except_bind_ok h
    obtain ⟨a4, e4, h⟩ := except_bind_ok h
    obtain ⟨a5, e5, h⟩ := except_bind_ok h
    obtain ⟨a6, e6, h⟩ := except_bind_ok h
    obtain ⟨a7, e7, h⟩ := except_bind_ok h
    obtain ⟨a8, e8, h⟩ := except_bind_ok h
    obtain ⟨a9, e9, h⟩ := except_bind_ok h
    obtain ⟨a10, e10, h⟩ := except_bind_ok h
    obtain ⟨a11, e11, h⟩ := except_bind_ok h
    obtain ⟨v1, -, rfl⟩ := setFromConfig_ok_inv _ _ _ _ _ e1
    obtain ⟨v2, -, rfl⟩ := setFromConfig_ok_inv _ _ _ _ _ e2
    obtain ⟨v3, -, rfl⟩ := setFromConfig_ok_inv _ _ _ _ _ e3
    obtain ⟨v4, -, rfl⟩ := setFromConfig_ok_inv _ _ _ _ _ e4
    obtain ⟨v5, -, rfl⟩ := setFromConfig_ok_inv _ _ _ _ _ e5
    obtain ⟨v6, -, rfl⟩ := setFromConfig_ok_inv _ _ _ _ _ e6
    obtain ⟨v7, -, rfl⟩ := setFromConfig_ok_inv _ _ _ _ _ e7
    obtain ⟨v8, -, rfl⟩ := setFromConfig_ok_inv _ _ _ _ _ e8
    obtain ⟨v9, -, rfl⟩ := setFromConfig_ok_inv _ _ _ _ _ e9
    obtain ⟨v10, -, rfl⟩ := setFromConfig_ok_inv _ _ _ _ _ e10
    obtain ⟨v11, -, rfl⟩ := setFromConfig_ok_inv _ _ _ _ _ e11
    obtain ⟨v12, -, rfl⟩ := setFromConfig_ok_inv _ _ _ _ _ h
    intro k hk
    simp only [twelveVars, List.mem_cons, List.not_mem_nil, or_false] at hk
    rcases hk with rfl | rfl | rfl | rfl | rfl | rfl | rfl | rfl | rfl | rfl | rfl | rfl <;>
      simp [envGet?, envSet]
  · rw [if_neg hsec] at h
    cases h

theorem init_ok (os : String) (file : Option Config) (env : Env) (fs : FS)
    (sOk : Bool) (env1 : Env) (b : Bool)
    (h : initResolve os file env = .ok (env1, b)) :
    init os file env fs sOk = .ok ⟨env1, (cleanup fs).fst,
      [.cleanupRun, .suiteInit sOk] ++ (if sOk then [] else [.suiteInitFailMsg])⟩ := by
  cases sOk <;> simp [init, h]

theorem main_ok (os : String) (file : Option Config) (env : Env) (fs : FS)
    (sOk : Bool) (gf : String → Bool) (env1 : Env) (b : Bool)
    (h : initResolve os file env = .ok (env1, b)) :
    main os file env fs sOk gf = .ok (env1, (cleanup ((cleanup fs).fst)).fst,
      ([.cleanupRun, .suiteInit sOk] ++ (if sOk then [] else [.suiteInitFailMsg])) ++
        groupNames.map (fun n => .groupRun n (gf n)) ++ [.cleanupRun]) := by
  cases sOk <;> simp [main, init_ok os file env fs _ env1 b h]

theorem executedGroups_trace (sOk : Bool) (gf : String → Bool) :
    executedGroups (([.cleanupRun, .suiteInit sOk] ++
        (if sOk then [] else [.suiteInitFailMsg])) ++
      groupNames.map (fun n => .groupRun n (gf n)) ++ [.cleanupRun]) = groupNames := by
  cases sOk <;> simp [executedGroups, groupNames]

/-- Claim C2: for a config file readable as exactly one file, containing the uppercased-platform section and complete platform and CREDENTIALS entries, parse_config_file_set_env succeeds, sets the 12 named environment variables to the exact file values, and changes no other environment variable. -/
theorem claim_C2_parse_sets_exactly_twelve (osName : String) (config : Config)
    (env0 : Env) (p1 p2 p3 c1 c2 c3 c4 c5 c6 c7 c8 c9 : String)
    (hsec : hasSection config (strUpper osName) = true)
    (h1 : optionGet? config (strUpper osName) "TEST_DIRECTORY_PATH" = some p1)
    (h2 : optionGet? config (strUpper osName) "AZCOPY_EXECUTABLE_PATH" = some p2)
    (h3 : optionGet? config (strUpper osName) "TEST_SUITE_EXECUTABLE_LOCATION" = some p3)
    (h4 : optionGet? config "CREDENTIALS" "CONTAINER_SAS_URL" = some c1)
    (h5 : optionGet? config "CREDENTIALS" "CONTAINER_OAUTH_URL" = some c2)
    (h6 : optionGet? config "CREDENTIALS" "CONTAINER_OAUTH_VALIDATE_SAS_URL" = some c3)
    (h7 : optionGet? config "CREDENTIALS" "SHARE_SAS_URL" = some c4)
    (h8 : optionGet? config "CREDENTIALS" "PREMIUM_CONTAINER_SAS_URL" = some c5)
    (h9 : optionGet? config "CREDENTIALS" "ACCOUNT_NAME" = some c6)
    (h10 : optionGet? config "CREDENTIALS" "ACCOUNT_KEY" = some c7)
    (h11 : optionGet? config "CREDENTIALS" "FILESYSTEM_URL" = some c8)
    (h12 : optionGet? config "CREDENTIALS" "AZCOPY_OAUTH_TOKEN_INFO" = some c9) :
    ∃ env1, parse_config_file_set_env osName (some config) env0 = .ok env1
      ∧ (∀ k, k ∉ twelveVars → envGet? env1 k = envGet? env0 k)
      ∧ envGet? env1 "TEST_DIRECTORY_PATH" = some p1
      ∧ envGet? env1 "AZCOPY_EXECUTABLE_PATH" = some p2
      ∧ envGet? env1 "TEST_SUITE_EXECUTABLE_LOCATION" = some p3
      ∧ envGet? env1 "CONTAINER_SAS_URL" = some c1
      ∧ envGet? env1 "CONTAINER_OAUTH_URL" = some c2
      ∧ envGet? env1 "CONTAINER_OAUTH_VALIDATE_SAS_URL" = some c3
      ∧ envGet? env1 "SHARE_SAS_URL" = some c4
      ∧ envGet? env1 "PREMIUM_CONTAINER_SAS_URL" = some c5
      ∧ envGet? env1 "ACCOUNT_NAME" = some c6
      ∧ envGet? env1 "ACCOUNT_KEY" = some c7
      ∧ envGet? env1 "FILESYSTEM_URL" = some c8
      ∧ envGet? env1 "AZCOPY_OAUTH_TOKEN_INFO" = some c9 := by
  refine ⟨_, parse_ok osName config env0 p1 p2 p3 c1 c2 c3 c4 c5 c6 c7 c8 c9
    hsec h1 h2 h3 h4 h5 h6 h7 h8 h9 h10 h11 h12, ?_, ?_, ?_, ?_, ?_, ?_, ?_,
    ?_, ?_, ?_, ?_, ?_, ?_⟩
  · intro k hk
    simp only [twelveVars, List.mem_cons, List.not_mem_nil, or_false, not_or] at hk
    obtain ⟨n1, n2, n3, n4, n5, n6, n7, n8, n9, n10, n11, n12⟩ := hk
    simp [envGet?, envSet, n1, n2, n3, n4, n5, n6, n7, n8, n9, n10, n11, n12]
  all_goals simp [envGet?, envSet]

/-- Claim C3: when every checked environment variable is set (and not the sentinel), the resolution step of init succeeds with the environment unchanged and the file-consulted flag false, for every possible file-read result (even a missing file): the config file is never opened, and re-running resolution is the same no-op. -/
theorem claim_C3_resolution_noop_when_all_set (osName : String) (env : Env)
    (h : ∀ k ∈ initCheckedVars, check_env_not_exist env k = false) :
    ∀ filesRead : Option Config, initResolve osName filesRead env = .ok (env, false) := by
  intro filesRead
  have hany : (initCheckedVars.any fun k => check_env_not_exist env k) = false := by
    rw [List.any_eq_false]
    intro k hk
    simp [h k hk]
  simp [initResolve, hany]

/-- Claim C5: a readable config file with no section for the uppercased platform makes parse_config_file_set_env raise the platform-not-found error naming the OS type, with the environment unchanged (no variable set). -/
theorem claim_C5_platform_missing_error (osName : String) (config : Config)
    (env : Env) (h : hasSection config (strUpper osName) = false) :
    parse_config_file_set_env osName (some config) env =
      .error (.platformNotFound (strUpper osName), env) := by
  simp [parse_config_file_set_env, h]

/-- Claim C6: when at least one checked environment variable is missing and the config file cannot be read as exactly one file, resolution raises the failed-to-open error, with the environment unchanged (raised before setting any variable). -/
theorem claim_C6_failed_open_error (osName : String) (env : Env)
    (h : (initCheckedVars.any fun k => check_env_not_exist env k) = true) :
    initResolve osName none env = .error (.failedToOpen, env) := by
  simp [initResolve, h, parse_config_file_set_env, Except.map]

/-- Claim C7: check_env_not_exist returns true exactly when the variable is absent or equals the sentinel string; consequently a checked variable explicitly set to the sentinel makes the init or-chain trigger config-file resolution. -/
theorem claim_C7_check_env_not_exist_spec (env : Env) (k : String) :
    (check_env_not_exist env k = true ↔
      envGet? env k = none ∨ envGet? env k = some "-1")
    ∧ (k ∈ initCheckedVars → envGet? env k = some "-1" →
        (initCheckedVars.any fun k2 => check_env_not_exist env k2) = true) := by
  constructor
  · cases h : envGet? env k <;> simp [check_env_not_exist, h]
  · intro hk hv
    exact List.any_eq_true.mpr ⟨k, hk, by simp [check_env_not_exist, hv]⟩

/-- Counterexample to claim C4 as stated: on a config file whose CREDENTIALS section is missing, resolution terminates with an error after having set exactly 3 of the 12 environment variables - a strict non-empty subset. -/
theorem claim_C4_counterexample :
    parse_config_file_set_env "Linux" (some sampleConfigNoCredentials) [] =
      .error (.missingKey "CREDENTIALS" "CONTAINER_SAS_URL",
        [("TEST_SUITE_EXECUTABLE_LOCATION", "ts"),
         ("AZCOPY_EXECUTABLE_PATH", "az"), ("TEST_DIRECTORY_PATH", "dir")])
    ∧ setCount [("TEST_SUITE_EXECUTABLE_LOCATION", "ts"),
         ("AZCOPY_EXECUTABLE_PATH", "az"), ("TEST_DIRECTORY_PATH", "dir")] = 3
    ∧ setCount [] = 0 ∧ 0 < 3 ∧ 3 < 12 := by
  exact ⟨rfl, by decide, by decide, by decide, by decide⟩

/-- Claim C4 (amended): whenever resolution succeeds, all 12 variables are set before any test group runs; whenever resolution raises, main propagates the error and runs no group. (Resolution is however not atomic on error; see the counterexample.) -/
theorem claim_C4_amended (osName : String) (filesRead : Option Config)
    (env : Env) (fs : FS) (sOk : Bool) (gf : String → Bool) :
    (∀ env1 b, initResolve osName filesRead env = .ok (env1, b) →
      ∀ k ∈ twelveVars, (envGet? env1 k).isSome)
    ∧ (∀ e, initResolve osName filesRead env = .error e →
      main osName filesRead env fs sOk gf = .error e) := by
  constructor
  · intro env1 b h k hk
    unfold initResolve at h
    by_cases hany : (initCheckedVars.any fun k2 => check_env_not_exist env k2) = true
    · rw [if_pos hany] at h
      cases filesRead with
      | none => simp [parse_config_file_set_env, Except.map] at h
      | some config =>
        rcases hp : parse_config_file_set_env osName (some config) env with e | env2
        · rw [hp] at h; simp [Except.map] at h
        · rw [hp] at h
          simp [Except.map] at h
          obtain ⟨rfl, -⟩ := h
          exact parse_ok_all_set osName config env env2 hp k hk
    · rw [if_neg hany] at h
      obtain ⟨rfl, -⟩ : env = env1 ∧ False = b := by
        simpa using h
      have hall : ∀ k2 ∈ initCheckedVars, ¬ check_env_not_exist env k2 = true := by
        simpa [List.any_eq_true] using hany
      have hkc : k ∈ initCheckedVars := by
        simp only [twelveVars, List.mem_cons, List.not_mem_nil, or_false] at hk
        rcases hk with rfl | rfl | rfl | rfl | rfl | rfl | rfl | rfl | rfl | rfl | rfl | rfl <;>
          simp [initCheckedVars]
      have hc := hall k hkc
      cases he : envGet? env k with
      | none => exact absurd (by simp [check_env_not_exist, he]) hc
      | some v => simp [he]
  · intro e h
    simp [main, init, h]

/-- Claim C8: after a successful init, main runs exactly the ten test-case groups in the fixed order declared in groupNames, whatever each group reports; a failing group never prevents the remaining groups from running. -/
theorem claim_C8_groups_fixed_order (osName : String) (filesRead : Option Config)
    (env env1 : Env) (fs : FS) (sOk b : Bool) (gf : String → Bool)
    (h : initResolve osName filesRead env = .ok (env1, b)) :
    ∃ fsF evs, main osName filesRead env fs sOk gf = .ok (env1, fsF, evs)
      ∧ executedGroups evs = groupNames :=
  ⟨_, _, main_ok osName filesRead env fs sOk gf env1 b h,
    executedGroups_trace sOk gf⟩

/-- Claim C9: cleanup attempts to delete every *.log file of the working directory whatever the per-file outcomes (deletion errors are swallowed and never prevent the remaining attempts), removes exactly the removable matching files, and is invoked before the suite-initializer call and again after all ten groups. -/
theorem claim_C9_cleanup_best_effort (fs : FS) (osName : String)
    (filesRead : Option Config) (env env1 : Env) (sOk b : Bool)
    (gf : String → Bool)
    (h : initResolve osName filesRead env = .ok (env1, b))
    (hnd : (fs.map Prod.fst).Nodup) :
    (cleanup fs).snd = (fs.filter (fun f => matchesLogGlob f.fst)).map Prod.fst
    ∧ (cleanup fs).fst = fs.filter (fun f => !(matchesLogGlob f.fst && f.snd))
    ∧ main osName filesRead env fs sOk gf = .ok (env1, (cleanup ((cleanup fs).fst)).fst,
        ([.cleanupRun, .suiteInit sOk] ++ (if sOk then [] else [.suiteInitFailMsg])) ++
          groupNames.map (fun n => .groupRun n (gf n)) ++ [.cleanupRun]) :=
  ⟨cleanup_snd fs, cleanup_fst fs hnd,
    main_ok osName filesRead env fs sOk gf env1 b h⟩

/-- Claim C10: when at least one checked variable is missing or sentinel-valued, resolution parses the config file and repopulates all 12 variables from it, overwriting even variables that were already set to non-sentinel values, and leaves every other variable unchanged. -/
theorem claim_C10_file_overwrites_env (osName : String) (config : Config)
    (env : Env) (p1 p2 p3 c1 c2 c3 c4 c5 c6 c7 c8 c9 : String)
    (hmiss : (initCheckedVars.any fun k => check_env_not_exist env k) = true)
    (hsec : hasSection config (strUpper osName) = true)
    (h1 : optionGet? config (strUpper osName) "TEST_DIRECTORY_PATH" = some p1)
    (h2 : optionGet? config (strUpper osName) "AZCOPY_EXECUTABLE_PATH" = some p2)
    (h3 : optionGet? config (strUpper osName) "TEST_SUITE_EXECUTABLE_LOCATION" = some p3)
    (h4 : optionGet? config "CREDENTIALS" "CONTAINER_SAS_URL" = some c1)
    (h5 : optionGet? config "CREDENTIALS" "CONTAINER_OAUTH_URL" = some c2)
    (h6 : optionGet? config "CREDENTIALS" "CONTAINER_OAUTH_VALIDATE_SAS_URL" = some c3)
    (h7 : optionGet? config "CREDENTIALS" "SHARE_SAS_URL" = some c4)
    (h8 : optionGet? config "CREDENTIALS" "PREMIUM_CONTAINER_SAS_URL" = some c5)
    (h9 : optionGet? config "CREDENTIALS" "ACCOUNT_NAME" = some c6)
    (h10 : optionGet? config "CREDENTIALS" "ACCOUNT_KEY" = some c7)
    (h11 : optionGet? config "CREDENTIALS" "FILESYSTEM_URL" = some c8)
    (h12 : optionGet? config "CREDENTIALS" "AZCOPY_OAUTH_TOKEN_INFO" = some c9) :
    ∃ env1, initResolve osName (some config) env = .ok (env1, true)
      ∧ (∀ k, k ∉ twelveVars → envGet? env1 k = envGet? env k)
      ∧ envGet? env1 "TEST_DIRECTORY_PATH" = some p1
      ∧ envGet? env1 "AZCOPY_EXECUTABLE_PATH" = some p2
      ∧ envGet? env1 "TEST_SUITE_EXECUTABLE_LOCATION" = some p3
      ∧ envGet? env1 "CONTAINER_SAS_URL" = some c1
      ∧ envGet? env1 "CONTAINER_OAUTH_URL" = some c2
      ∧ envGet? env1 "CONTAINER_OAUTH_VALIDATE_SAS_URL" = some c3
      ∧ envGet? env1 "SHARE_SAS_URL" = some c4
      ∧ envGet? env1 "PREMIUM_CONTAINER_SAS_URL" = some c5
      ∧ envGet? env1 "ACCOUNT_NAME" = some c6
      ∧ envGet? env1 "ACCOUNT_KEY" = some c7
      ∧ envGet? env1 "FILESYSTEM_URL" = some c8
      ∧ envGet? env1 "AZCOPY_OAUTH_TOKEN_INFO" = some c9 := by
  have hp := parse_ok osName config env p1 p2 p3 c1 c2 c3 c4 c5 c6 c7 c8 c9
    hsec h1 h2 h3 h4 h5 h6 h7 h8 h9 h10 h11 h12
  refine ⟨("AZCOPY_OAUTH_TOKEN_INFO", c9) :: ("FILESYSTEM_URL", c8) ::
    ("ACCOUNT_KEY", c7) :: ("ACCOUNT_NAME", c6) ::
    ("PREMIUM_CONTAINER_SAS_URL", c5) :: ("SHARE_SAS_URL", c4) ::
    ("CONTAINER_OAUTH_VALIDATE_SAS_URL", c3) :: ("CONTAINER_OAUTH_URL", c2) ::
    ("CONTAINER_SAS_URL", c1) :: ("TEST_SUITE_EXECUTABLE_LOCATION", p3) ::
    ("AZCOPY_EXECUTABLE_PATH", p2) :: ("TEST_DIRECTORY_PATH", p1) :: env,
    ?_, ?_, ?_, ?_, ?_, ?_, ?_, ?_, ?_, ?_, ?_, ?_, ?_, ?_⟩
  · simp [initResolve, hmiss, hp, Except.map]
  · intro k hk
    simp only [twelveVars, List.mem_cons, List.not_mem_nil, or_false, not_or] at hk
    obtain ⟨n1, n2, n3, n4, n5, n6, n7, n8, n9, n10, n11, n12⟩ := hk
    simp [envGet?, envSet, n1, n2, n3, n4, n5, n6, n7, n8, n9, n10, n11, n12]
  all_goals simp [envGet?, envSet]

/-- Claim C1: the spec says a failed suite-initializer call halts the test phase (zero groups run). The code does not: with the initializer returning false, the run trace contains the failure message and still executes all ten test groups. -/
theorem claim_C1_groups_run_despite_suite_failure :
    ∃ evs, main "Linux" none sampleEnvAllSet [] false (fun _ => false) =
        .ok (sampleEnvAllSet, [], evs)
      ∧ Event.suiteInitFailMsg ∈ evs
      ∧ executedGroups evs = groupNames
      ∧ groupNames.length = 10 := by
  refine ⟨_, rfl, ?_, ?_, ?_⟩ <;> decide

/-- Witness for claim C2 at a concrete config file and empty environment. -/
theorem claim_C2_witness :
    ∃ env1, parse_config_file_set_env "Linux" (some sampleConfig) [] = .ok env1
      ∧ (∀ k, k ∉ twelveVars → envGet? env1 k = envGet? [] k)
      ∧ envGet? env1 "TEST_DIRECTORY_PATH" = some "dir"
      ∧ envGet? env1 "AZCOPY_EXECUTABLE_PATH" = some "az"
      ∧ envGet? env1 "TEST_SUITE_EXECUTABLE_LOCATION" = some "ts"
      ∧ envGet? env1 "CONTAINER_SAS_URL" = some "c1"
      ∧ envGet? env1 "CONTAINER_OAUTH_URL" = some "c2"
      ∧ envGet? env1 "CONTAINER_OAUTH_VALIDATE_SAS_URL" = some "c3"
      ∧ envGet? env1 "SHARE_SAS_URL" = some "c4"
      ∧ envGet? env1 "PREMIUM_CONTAINER_SAS_URL" = some "c5"
      ∧ envGet? env1 "ACCOUNT_NAME" = some "c6"
      ∧ envGet? env1 "ACCOUNT_KEY" = some "c7"
      ∧ envGet? env1 "FILESYSTEM_URL" = some "c8"
      ∧ envGet? env1 "AZCOPY_OAUTH_TOKEN_INFO" = some "c9" :=
  claim_C2_parse_sets_exactly_twelve "Linux" sampleConfig [] "dir" "az" "ts"
    "c1" "c2" "c3" "c4" "c5" "c6" "c7" "c8" "c9" (by decide) rfl rfl rfl rfl
    rfl rfl rfl rfl rfl rfl rfl rfl

/-- Witness for claim C3: a fully-set environment resolves without any file. -/
theorem claim_C3_witness :
    initResolve "Linux" none sampleEnvAllSet = .ok (sampleEnvAllSet, false) :=
  claim_C3_resolution_noop_when_all_set "Linux" sampleEnvAllSet (by decide) none

/-- Witness for claim C4 (amended): a resolution error propagates out of main. -/
theorem claim_C4_witness :
    main "Linux" none [] [] true (fun _ => false) = .error (.failedToOpen, []) :=
  (claim_C4_amended "Linux" none [] [] true (fun _ => false)).2
    (.failedToOpen, []) rfl

/-- Witness for claim C5 at a concrete sectionless config. -/
theorem claim_C5_witness :
    parse_config_file_set_env "Linux" (some sampleConfigNoPlatform) [("K", "v")] =
      .error (.platformNotFound "LINUX", [("K", "v")]) := by
  exact claim_C5_platform_missing_error "Linux" sampleConfigNoPlatform
    [("K", "v")] (by decide)

/-- Witness for claim C6 with one pre-set variable and no readable file. -/
theorem claim_C6_witness :
    initResolve "Linux" none [("ACCOUNT_NAME", "n")] =
      .error (.failedToOpen, [("ACCOUNT_NAME", "n")]) :=
  claim_C6_failed_open_error "Linux" [("ACCOUNT_NAME", "n")] (by decide)

/-- Witness for claim C7: a variable set to the sentinel triggers resolution. -/
theorem claim_C7_witness :
    (initCheckedVars.any fun k2 => check_env_not_exist sampleEnvSentinel k2) = true :=
  (claim_C7_check_env_not_exist_spec sampleEnvSentinel "CONTAINER_SAS_URL").2
    (by decide) (by decide)

/-- Witness for claim C8 with every group failing. -/
theorem claim_C8_witness :
    ∃ fsF evs, main "Linux" none sampleEnvAllSet [] true (fun _ => true) =
        .ok (sampleEnvAllSet, fsF, evs) ∧ executedGroups evs = groupNames :=
  claim_C8_groups_fixed_order "Linux" none sampleEnvAllSet sampleEnvAllSet []
    true false (fun _ => true) rfl

/-- Witness for claim C9 on a directory with a removable and a locked log file. -/
theorem claim_C9_witness :
    (cleanup sampleFS).snd =
        (sampleFS.filter (fun f => matchesLogGlob f.fst)).map Prod.fst
    ∧ (cleanup sampleFS).fst =
        sampleFS.filter (fun f => !(matchesLogGlob f.fst && f.snd))
    ∧ main "Linux" none sampleEnvAllSet sampleFS true (fun _ => false) =
        .ok (sampleEnvAllSet, (cleanup ((cleanup sampleFS).fst)).fst,
          ([.cleanupRun, .suiteInit true] ++ (if true then [] else [.suiteInitFailMsg])) ++
            groupNames.map (fun n => .groupRun n false) ++ [.cleanupRun]) :=
  claim_C9_cleanup_best_effort sampleFS "Linux" none sampleEnvAllSet
    sampleEnvAllSet true false (fun _ => false) rfl (by decide)

/-- Witness for claim C10: a pre-set CONTAINER_SAS_URL is overwritten by the file value. -/
theorem claim_C10_witness :
    ∃ env1, initResolve "Linux" (some sampleConfig) sampleEnvPreset = .ok (env1, true)
      ∧ (∀ k, k ∉ twelveVars → envGet? env1 k = envGet? sampleEnvPreset k)
      ∧ envGet? env1 "TEST_DIRECTORY_PATH" = some "dir"
      ∧ envGet? env1 "AZCOPY_EXECUTABLE_PATH" = some "az"
      ∧ envGet? env1 "TEST_SUITE_EXECUTABLE_LOCATION" = some "ts"
      ∧ envGet? env1 "CONTAINER_SAS_URL" = some "c1"
      ∧ envGet? env1 "CONTAINER_OAUTH_URL" = some "c2"
      ∧ envGet? env1 "CONTAINER_OAUTH_VALIDATE_SAS_URL" = some "c3"
      ∧ envGet? env1 "SHARE_SAS_URL" = some "c4"
      ∧ envGet? env1 "PREMIUM_CONTAINER_SAS_URL" = some "c5"
      ∧ envGet? env1 "ACCOUNT_NAME" = some "c6"
      ∧ envGet? env1 "ACCOUNT_KEY" = some "c7"
      ∧ envGet? env1 "FILESYSTEM_URL" = some "c8"
      ∧ envGet? env1 "AZCOPY_OAUTH_TOKEN_INFO" = some "c9" :=
  claim_C10_file_overwrites_env "Linux" sampleConfig sampleEnvPreset "dir" "az"
    "ts" "c1" "c2" "c3" "c4" "c5" "c6" "c7" "c8" "c9" (by decide) (by decide)
    rfl rfl rfl rfl rfl rfl rfl rfl rfl rfl rfl rfl

end RunPy
